import Mathlib

/-!
Shallow embedding of the concurrency framework (`securitiesanalysis/concurrent.py`)
and the retrying regex web scraper (`securitiesanalysis/regex_webscraper.py`),
with theorems checking the specification's claims about them.

Python values that matter only through identity/truthiness are modelled by the
small dynamic-value type `PyVal`; the behaviour of a wrapped work unit (the
Python function handle together with its arguments) is modelled by the oracle
type `WorkOutcome`, and the behaviour of each network fetch attempt by the
oracle type `FetchOutcome` (a list of such outcomes serves as fuel: one entry
per attempt, with the empty list meaning the recursion would continue past the
modelled horizon, i.e. the call has not returned).
-/

/-- Dynamic Python value, as far as the claims need it: `PyVal.none` is Python
`None`; truthiness mirrors Python (`bool(x)`). -/
inductive PyVal where
  | none
  | bool (b : Bool)
  | int (n : Int)
  | str (s : String)
deriving DecidableEq, Repr

/-- Python truthiness: `if x:` on a `PyVal`. -/
def PyVal.truthy : PyVal → Bool
  | .none => false
  | .bool b => b
  | .int n => n != 0
  | .str s => s != ""

/-- Behaviour of one wrapped work unit when run in the worker process:
it either completes returning a value, completes by raising (captured as the
string representation of the exception), or is still running when the
configured deadline elapses. -/
inductive WorkOutcome where
  | returns (v : PyVal)
  | raises (e : String)
  | hangs
deriving DecidableEq, Repr

/-- `FunctionWrapper.__init__` state that `execute` reads: the process name,
`timeout` and `default_return` (both kept as dynamic values because the code
branches on their truthiness, not on their presence). -/
structure FunctionWrapper where
  process_name : String
  timeout : PyVal
  default_return : PyVal
deriving DecidableEq, Repr

/-- Observable state of a `FunctionWrapper` after `execute` has returned:
`return_value` and `error` start as `None` and `done` as `False` in
`__init__`; `pool_terminated` / `pool_joined` record whether
`self.__pool.terminate()` / `self.__pool.join()` ran. -/
structure WrapperResult where
  return_value : PyVal
  error : PyVal
  done : Bool
  pool_terminated : Bool
  pool_joined : Bool
deriving DecidableEq, Repr

/-- `FunctionWrapper.execute` (concurrent.py lines 132-182).  The branch on
`if self.__timeout:` is Python truthiness.  With a truthy timeout: if the
async result is ready before the limit, `get()` either yields the value or
re-raises the worker's exception (caught by the bare `except:` which
terminates the pool and stores `str(sys.exc_info())`); if the deadline
elapses first the pool is terminated and the default return is adopted only
when `if self.__default_return:` is truthy.  Every path joins the pool and
sets `done = True`.  Without a timeout the code waits unboundedly, so a
hanging work unit means `execute` never returns, modelled as `Option.none`. -/
def FunctionWrapper.execute (w : FunctionWrapper) (o : WorkOutcome) :
    Option WrapperResult :=
  if w.timeout.truthy then
    match o with
    | .returns v => some ⟨v, PyVal.none, true, false, true⟩
    | .raises e => some ⟨PyVal.none, PyVal.str e, true, true, true⟩
    | .hangs =>
        if w.default_return.truthy then
          some ⟨w.default_return, PyVal.none, true, true, true⟩
        else
          some ⟨PyVal.none, PyVal.none, true, true, true⟩
  else
    match o with
    | .returns v => some ⟨v, PyVal.none, true, false, true⟩
    | .raises e => some ⟨PyVal.none, PyVal.str e, true, true, true⟩
    | .hangs => Option.none

/-- One wrapper tuple handed to `Pool` (concurrent.py `_func`): the handle,
args and kwargs are opaque and represented by the `outcome` they produce when
executed. -/
structure TaskSpec where
  name : String
  timeout : PyVal
  default_return : PyVal
  outcome : WorkOutcome
deriving DecidableEq, Repr

/-- `_func` (concurrent.py lines 253-288): builds a `FunctionWrapper` from the
wrapper tuple, executes it, waits for `done`, and returns
`(return_value, error)`.  `Option.none` means `execute` never returned. -/
def funcModel (t : TaskSpec) : Option (PyVal × PyVal) :=
  (FunctionWrapper.execute ⟨t.name, t.timeout, t.default_return⟩ t.outcome).map
    (fun st => (st.return_value, st.error))

/-- A Python list comprehension / `pool.map` over a fallible element
computation: stops at the first failure. -/
def optionTraverse {α β : Type} (f : α → Option β) : List α → Option (List β)
  | [] => some []
  | x :: xs =>
      match f x, optionTraverse f xs with
      | some y, some ys => some (y :: ys)
      | _, _ => Option.none

/-- `Pool.__init__` state read by `Pool.execute`. -/
structure Pool where
  wrapper_tuples : List TaskSpec
  pool_size : Nat
deriving DecidableEq, Repr

/-- `Pool.execute` (concurrent.py lines 328-342): `pool.map(_func, tuples)`
keeps submission order regardless of completion order, then
`self.__return_values, self.__errors = zip(*return_tuples)` unpacks the pairs.
For the empty tuple list, `zip(*[])` yields nothing and the two-target
unpacking raises `ValueError`, modelled as `Except.error`; an outer
`Option.none` means `pool.map` never returned (some task hung forever). -/
def Pool.execute (p : Pool) :
    Option (Except String (List PyVal × List PyVal)) :=
  (optionTraverse funcModel p.wrapper_tuples).map (fun ts =>
    match ts with
    | [] => Except.error ("ValueError: not enough values to unpack")
    | _ => Except.ok (ts.map Prod.fst, ts.map Prod.snd))

/-! ## Regex fragment used by the scraper

The repository's patterns use literal characters, the class backslash-d, the
greedy quantifier `+` on a single atom, and non-nested capture groups.  The
engine below models that fragment of Python `re`: leftmost search, greedy
matching with backtracking over the length of a `+` run. -/

/-- A single-character regex atom: a literal character or the digit class. -/
inductive RAtom where
  | lit (c : Char)
  | digit
deriving DecidableEq, Repr

/-- Whether a character is matched by an atom. -/
def RAtom.matchesChar : RAtom → Char → Bool
  | .lit c, d => c == d
  | .digit, d => d.isDigit

/-- An atom, optionally under the greedy `+` quantifier. -/
inductive RItemCore where
  | once (a : RAtom)
  | plus (a : RAtom)
deriving DecidableEq, Repr

/-- A top-level regex element: a bare atom/quantified atom, or a capture group
over a sequence of them (groups are not nested in the repository's patterns). -/
inductive RItem where
  | core (i : RItemCore)
  | group (gs : List RItemCore)
deriving DecidableEq, Repr

/-- Length of the maximal leading run of characters matched by an atom. -/
def countRun (a : RAtom) : List Char → Nat
  | [] => 0
  | c :: s => if a.matchesChar c then countRun a s + 1 else 0

/-- Greedy backtracking driver: try `g k`, `g (k-1)`, ..., `g 1` in order and
return the first success (used for the `+` quantifier: largest consumption
first, at least one character). -/
def tryFirst {α : Type} (g : Nat → Option α) : Nat → Option α
  | 0 => Option.none
  | k + 1 =>
      match g (k + 1) with
      | some r => some r
      | Option.none => tryFirst g k

/-- Match a sequence of core items against a prefix of `s`, returning the
number of characters consumed; `+` is greedy with backtracking over the
length of its run. -/
def matchCoreList : List RItemCore → List Char → Option Nat
  | [], _ => some 0
  | .once _ :: _, [] => Option.none
  | .once a :: rest, c :: s =>
      if a.matchesChar c then (matchCoreList rest s).map (· + 1) else Option.none
  | .plus a :: rest, s =>
      tryFirst (fun k => (matchCoreList rest (s.drop k)).map (k + ·)) (countRun a s)

/-- Match a sequence of top-level items against a prefix of `s`, returning
the consumed length and the list of captured group texts in group order. -/
def matchItems : List RItem → List Char → Option (Nat × List String)
  | [], _ => some (0, [])
  | .core (.once _) :: _, [] => Option.none
  | .core (.once a) :: rest, c :: s =>
      if a.matchesChar c then
        (matchItems rest s).map (fun r => (r.1 + 1, r.2))
      else Option.none
  | .core (.plus a) :: rest, s =>
      tryFirst (fun k => (matchItems rest (s.drop k)).map (fun r => (k + r.1, r.2)))
        (countRun a s)
  | .group gs :: rest, s =>
      match matchCoreList gs s with
      | some g =>
          (matchItems rest (s.drop g)).map
            (fun r => (g + r.1, String.mk (s.take g) :: r.2))
      | Option.none => Option.none

/-- `pattern.search(s)` restricted to this fragment: leftmost match.  Returns
`(start, length, captures)` of the first match, scanning left to right. -/
def searchAux (re : List RItem) : List Char → Nat → Option (Nat × Nat × List String)
  | [], i => (matchItems re []).map (fun r => (i, r.1, r.2))
  | c :: t, i =>
      match matchItems re (c :: t) with
      | some r => some (i, r.1, r.2)
      | Option.none => searchAux re t (i + 1)

/-- Number of capture groups in a pattern. -/
def numGroups (re : List RItem) : Nat :=
  re.countP (fun it => match it with | .group _ => true | _ => false)

/-- One element of a `re.findall` result: a string, or a tuple of group texts
when the pattern has two or more groups. -/
inductive MatchVal where
  | str (s : String)
  | tup (ss : List String)
deriving DecidableEq, Repr

/-- `re.findall` element selection: the whole match when the pattern has no
groups, the single group's text with one group, a tuple of group texts
otherwise. -/
def findallElem (ng : Nat) (whole : String) (caps : List String) : MatchVal :=
  match ng with
  | 0 => MatchVal.str whole
  | 1 => MatchVal.str (caps.headD (""))
  | _ => MatchVal.tup caps

/-- Scan for successive non-overlapping matches (fuelled by the remaining
string length; a zero-length match advances one character). -/
def findallAux (re : List RItem) (ng : Nat) : List Char → Nat → List MatchVal
  | _, 0 => []
  | s, fuel + 1 =>
      match searchAux re s 0 with
      | some (i, n, caps) =>
          findallElem ng (String.mk ((s.drop i).take n)) caps ::
            findallAux re ng (s.drop (i + max n 1)) fuel
      | Option.none => []

/-- `re.findall(p.pattern, contents)` for this fragment. -/
def findallMatches (re : List RItem) (s : List Char) : List MatchVal :=
  findallAux re (numGroups re) s (s.length + 1)

/-! ## Pattern compilation (`re.compile` restricted to the fragment) -/

/-- Parse the body of a capture group, up to and past the closing parenthesis.
Returns `Option.none` for patterns outside the modelled fragment. -/
def parseCores : List Char → Option (List RItemCore × List Char)
  | [] => Option.none
  | ')' :: rest => some ([], rest)
  | '\\' :: 'd' :: '+' :: rest =>
      (parseCores rest).map (fun r => (RItemCore.plus RAtom.digit :: r.1, r.2))
  | '\\' :: 'd' :: rest =>
      (parseCores rest).map (fun r => (RItemCore.once RAtom.digit :: r.1, r.2))
  | '\\' :: c :: '+' :: rest =>
      (parseCores rest).map (fun r => (RItemCore.plus (RAtom.lit c) :: r.1, r.2))
  | '\\' :: c :: rest =>
      (parseCores rest).map (fun r => (RItemCore.once (RAtom.lit c) :: r.1, r.2))
  | '(' :: _ => Option.none
  | '+' :: _ => Option.none
  | c :: '+' :: rest =>
      (parseCores rest).map (fun r => (RItemCore.plus (RAtom.lit c) :: r.1, r.2))
  | c :: rest =>
      (parseCores rest).map (fun r => (RItemCore.once (RAtom.lit c) :: r.1, r.2))

/-- Parse a whole pattern of the fragment (fuelled; `parsePattern` supplies
enough fuel for the input). -/
def parseTop : Nat → List Char → Option (List RItem)
  | _, [] => some []
  | 0, _ => Option.none
  | fuel + 1, '(' :: rest =>
      match parseCores rest with
      | some (gs, rem) => (parseTop fuel rem).map (RItem.group gs :: ·)
      | Option.none => Option.none
  | fuel + 1, '\\' :: 'd' :: '+' :: rest =>
      (parseTop fuel rest).map (RItem.core (RItemCore.plus RAtom.digit) :: ·)
  | fuel + 1, '\\' :: 'd' :: rest =>
      (parseTop fuel rest).map (RItem.core (RItemCore.once RAtom.digit) :: ·)
  | fuel + 1, '\\' :: c :: '+' :: rest =>
      (parseTop fuel rest).map (RItem.core (RItemCore.plus (RAtom.lit c)) :: ·)
  | fuel + 1, '\\' :: c :: rest =>
      (parseTop fuel rest).map (RItem.core (RItemCore.once (RAtom.lit c)) :: ·)
  | _, ')' :: _ => Option.none
  | _, '+' :: _ => Option.none
  | _, '\\' :: [] => Option.none
  | fuel + 1, c :: '+' :: rest =>
      (parseTop fuel rest).map (RItem.core (RItemCore.plus (RAtom.lit c)) :: ·)
  | fuel + 1, c :: rest =>
      (parseTop fuel rest).map (RItem.core (RItemCore.once (RAtom.lit c)) :: ·)

/-- `re.compile(p)` for the fragment: parse the pattern string. -/
def parsePattern (p : String) : Option (List RItem) :=
  parseTop (p.length + 1) p.toList

/-- `[re.compile(p) for p in pattern_list]` (regex_webscraper.py line 71). -/
def compilePatterns (ps : List String) : Option (List (List RItem)) :=
  optionTraverse parsePattern ps

/-! ## The scraper -/

/-- One extracted value for one pattern: a matched string, a tuple of selected
capture groups, or (find-all mode) the list of all matches. -/
inductive PatValue where
  | str (s : String)
  | tup (ss : List String)
  | list (ms : List MatchVal)
deriving DecidableEq, Repr

/-- `RegexWebScraper.__init__` state read by `__scrape_retry`: compiled
patterns, timing/retry configuration, and the extraction options.  `groups`
is `Option` because its default is `None`; the code tests it by Python
truthiness (so `some []`, the empty tuple, also counts as absent). -/
structure RegexWebScraper where
  pattern_list : List (List RItem)
  timeout : Nat
  delay_time : Nat
  max_retries : Nat
  verify : Bool
  findall : Bool
  groups : Option (List Nat)
deriving DecidableEq, Repr

/-- Python truthiness of the `groups` tuple: `if self.__groups:`. -/
def groupsTruthy : Option (List Nat) → Bool
  | some (_ :: _) => true
  | _ => false

/-- `m.group(g)`: the whole match for index 0, else the g-th capture;
`Option.none` models the `IndexError` for an out-of-range index. -/
def groupGet (whole : String) (caps : List String) (g : Nat) : Option String :=
  if g = 0 then some whole else caps.get? (g - 1)

/-- `m.group(*gs)`: a single string for one index, a tuple for several. -/
def groupSelect (whole : String) (caps : List String) : List Nat → Option PatValue
  | [g] => (groupGet whole caps g).map PatValue.str
  | gs => (optionTraverse (groupGet whole caps) gs).map PatValue.tup

/-- One element of the extraction comprehension (regex_webscraper.py lines
136-148) for pattern `re` against the fetched document: find-all mode returns
every match; otherwise the first match is searched and either the configured
capture groups or the whole match is taken.  `Option.none` models the
exception raised when `search` finds nothing (`AttributeError` on
`None.group`) or a group index is out of range. -/
def RegexWebScraper.extractOne (scr : RegexWebScraper) (re : List RItem)
    (contents : List Char) : Option PatValue :=
  if scr.findall then
    some (PatValue.list (findallMatches re contents))
  else if groupsTruthy scr.groups then
    match searchAux re contents 0 with
    | some (i, n, caps) =>
        groupSelect (String.mk ((contents.drop i).take n)) caps (scr.groups.getD [])
    | Option.none => Option.none
  else
    match searchAux re contents 0 with
    | some (i, n, _) => some (PatValue.str (String.mk ((contents.drop i).take n)))
    | Option.none => Option.none

/-- The whole extraction comprehension over `self.__pattern_list`: aborts at
the first pattern whose extraction raises. -/
def RegexWebScraper.extractAll (scr : RegexWebScraper) (contents : List Char) :
    Option (List PatValue) :=
  optionTraverse (fun p => scr.extractOne p contents) scr.pattern_list

/-- The `matches` variable after the inner `try` of `__scrape_retry` (lines
135-151): extraction values when the comprehension succeeds, else one `None`
per configured pattern. -/
def RegexWebScraper.matchesOf (scr : RegexWebScraper) (contents : List Char) :
    List (Option PatValue) :=
  match scr.extractAll contents with
  | some vs => vs.map some
  | Option.none => List.replicate scr.pattern_list.length Option.none

/-- Behaviour of one fetch attempt (`requests.get(url, ...).text`): the
document text, or one of the exception classes the retry logic distinguishes. -/
inductive FetchOutcome where
  | success (contents : String)
  | readTimeout
  | connectionError
  | genericError
deriving DecidableEq, Repr

/-- `RegexWebScraper.__scrape_retry` (regex_webscraper.py lines 106-166),
driven by the per-attempt oracle list: a successful fetch returns `matches`
via the `else:` branch; `ReadTimeout` / `ConnectionError` sleep and recurse
with the retry counter unchanged; any other fetch failure increments the
counter and either recurses or returns one `None` per pattern once
`retry_count` has reached `max_retries`.  An exhausted oracle (`[]`) means
the call is still retrying past the modelled horizon, i.e. has not returned. -/
def RegexWebScraper.scrape_retry (scr : RegexWebScraper) :
    List FetchOutcome → Nat → Option (List (Option PatValue))
  | [], _ => Option.none
  | .success contents :: _, _ => some (scr.matchesOf contents.toList)
  | .readTimeout :: rest, retry_count => scr.scrape_retry rest retry_count
  | .connectionError :: rest, retry_count => scr.scrape_retry rest retry_count
  | .genericError :: rest, retry_count =>
      if retry_count + 1 < scr.max_retries then
        scr.scrape_retry rest (retry_count + 1)
      else
        some (List.replicate scr.pattern_list.length Option.none)

/-- `RegexWebScraper.scrape` (lines 86-104): starts the retry recursion with
a retry count of zero. -/
def RegexWebScraper.scrape (scr : RegexWebScraper)
    (outcomes : List FetchOutcome) : Option (List (Option PatValue)) :=
  scr.scrape_retry outcomes 0

/-- Modelled from the claim C7's reading of `__scrape_retry`, for comparison
with the code: here an extraction failure takes the bounded-retry path
(increment the counter, delay, retry) instead of degrading immediately. -/
def scrapeRetryClaimC7 (scr : RegexWebScraper) :
    List FetchOutcome → Nat → Option (List (Option PatValue))
  | [], _ => Option.none
  | .success contents :: rest, retry_count =>
      match scr.extractAll contents.toList with
      | some vs => some (vs.map some)
      | Option.none =>
          if retry_count + 1 < scr.max_retries then
            scrapeRetryClaimC7 scr rest (retry_count + 1)
          else
            some (List.replicate scr.pattern_list.length Option.none)
  | .readTimeout :: rest, retry_count => scrapeRetryClaimC7 scr rest retry_count
  | .connectionError :: rest, retry_count => scrapeRetryClaimC7 scr rest retry_count
  | .genericError :: rest, retry_count =>
      if retry_count + 1 < scr.max_retries then
        scrapeRetryClaimC7 scr rest (retry_count + 1)
      else
        some (List.replicate scr.pattern_list.length Option.none)

/-! ## Helper lemmas -/

/-- A successful traversal preserves the list length. -/
theorem optionTraverse_length {α β : Type} (f : α → Option β) :
    ∀ (l : List α) (r : List β), optionTraverse f l = some r → r.length = l.length := by
  intro l
  induction l with
  | nil =>
      intro r h
      simp only [optionTraverse, Option.some.injEq] at h
      subst h
      rfl
  | cons x xs ih =>
      intro r h
      simp only [optionTraverse] at h
      cases hfx : f x with
      | none => rw [hfx] at h; exact absurd h (by simp)
      | some y =>
          cases hxs : optionTraverse f xs with
          | none => rw [hfx, hxs] at h; exact absurd h (by simp)
          | some ys =>
              rw [hfx, hxs] at h
              simp only [Option.some.injEq] at h
              subst h
              simp [ih ys hxs]

/-- A successful traversal acts pointwise: element `i` of the result is the
image of element `i` of the input. -/
theorem optionTraverse_get {α β : Type} (f : α → Option β) :
    ∀ (l : List α) (r : List β), optionTraverse f l = some r →
      ∀ (i : Nat) (h1 : i < l.length) (h2 : i < r.length),
        f (l.get ⟨i, h1⟩) = some (r.get ⟨i, h2⟩) := by
  intro l
  induction l with
  | nil =>
      intro r h i h1 h2
      exact absurd h1 (by simp)
  | cons x xs ih =>
      intro r h i h1 h2
      simp only [optionTraverse] at h
      cases hfx : f x with
      | none => rw [hfx] at h; exact absurd h (by simp)
      | some y =>
          cases hxs : optionTraverse f xs with
          | none => rw [hfx, hxs] at h; exact absurd h (by simp)
          | some ys =>
              rw [hfx, hxs] at h
              simp only [Option.some.injEq] at h
              subst h
              cases i with
              | zero => simpa using hfx
              | succ n =>
                  exact ih ys hxs n (Nat.lt_of_succ_lt_succ h1) (Nat.lt_of_succ_lt_succ h2)

/-- If one element fails, the whole traversal fails. -/
theorem optionTraverse_none_of_mem {α β : Type} (f : α → Option β) :
    ∀ (l : List α) (x : α), x ∈ l → f x = Option.none →
      optionTraverse f l = Option.none := by
  intro l
  induction l with
  | nil => intro x hx; cases hx
  | cons y ys ih =>
      intro x hx hfx
      rcases List.mem_cons.mp hx with h | hmem
      · subst h; simp [optionTraverse, hfx]
      · have hys := ih x hmem hfx
        cases hfy : f y <;> simp [optionTraverse, hfy, hys]

/-! ## Claims about `FunctionWrapper.execute` -/

/-- C2 counterexample: the claim says that once the done flag is set the
result holds exactly one of a success value or an error, in particular after
a deadline timeout with no fallback.  But for a hanging work unit with a
one-second timeout and no default return, `execute` finishes with
`done = True` while `return_value` and `error` are both still `None`. -/
theorem c2_counterexample :
    FunctionWrapper.execute ⟨("w"), PyVal.int 1, PyVal.none⟩ WorkOutcome.hangs =
      some ⟨PyVal.none, PyVal.none, true, true, true⟩ := rfl

/-- C2 (amended): after `execute` has returned, at most one of the success
value and the error description is set — never both; both can remain absent
after completion (deadline exceeded with no truthy fallback). -/
theorem c2_result_exclusive (w : FunctionWrapper) (o : WorkOutcome)
    (st : WrapperResult) (h : w.execute o = some st) :
    st.return_value = PyVal.none ∨ st.error = PyVal.none := by
  cases o with
  | returns v =>
      by_cases htr : w.timeout.truthy <;>
        simp only [FunctionWrapper.execute, htr, if_true, if_false,
          Bool.false_eq_true, Option.some.injEq] at h <;>
        subst h <;> exact Or.inr rfl
  | raises e =>
      by_cases htr : w.timeout.truthy <;>
        simp only [FunctionWrapper.execute, htr, if_true, if_false,
          Bool.false_eq_true, Option.some.injEq] at h <;>
        subst h <;> exact Or.inl rfl
  | hangs =>
      by_cases htr : w.timeout.truthy
      · simp only [FunctionWrapper.execute, htr, if_true] at h
        by_cases hd : w.default_return.truthy <;>
          simp only [hd, if_true, if_false, Bool.false_eq_true,
            Option.some.injEq] at h <;>
          subst h <;> exact Or.inr rfl
      · simp [FunctionWrapper.execute, htr] at h

/-- C2 witness: instantiating the amended exclusivity theorem on a work unit
that returns the integer 7. -/
theorem c2_witness :
    (⟨PyVal.int 7, PyVal.none, true, false, true⟩ : WrapperResult).return_value
        = PyVal.none ∨
    (⟨PyVal.int 7, PyVal.none, true, false, true⟩ : WrapperResult).error
        = PyVal.none :=
  c2_result_exclusive ⟨("w"), PyVal.none, PyVal.none⟩
    (WorkOutcome.returns (PyVal.int 7)) _ rfl

/-- C3 counterexample: the fallback value 0 is supplied but falsy, so on a
deadline timeout `if self.__default_return:` fails and the result stays
`None` instead of adopting the fallback, contradicting the claim's
"including falsy values such as 0". -/
theorem c3_counterexample :
    FunctionWrapper.execute ⟨("w"), PyVal.int 1, PyVal.int 0⟩ WorkOutcome.hangs =
      some ⟨PyVal.none, PyVal.none, true, true, true⟩ := rfl

/-- C3 (amended): on a deadline timeout the worker pool is terminated and
joined, no error is recorded, and the fallback is adopted as the result only
when it is truthy; a falsy or absent fallback leaves the result unset. -/
theorem c3_timeout_fallback (w : FunctionWrapper) (ht : w.timeout.truthy = true) :
    w.execute WorkOutcome.hangs =
      some ⟨if w.default_return.truthy then w.default_return else PyVal.none,
            PyVal.none, true, true, true⟩ := by
  by_cases hd : w.default_return.truthy <;> simp [FunctionWrapper.execute, ht, hd]

/-- C3 witness: a truthy fallback, the string X, is adopted on timeout. -/
theorem c3_witness :
    FunctionWrapper.execute ⟨("w"), PyVal.int 1, PyVal.str ("X")⟩ WorkOutcome.hangs =
      some ⟨if (PyVal.str ("X")).truthy then PyVal.str ("X") else PyVal.none,
            PyVal.none, true, true, true⟩ :=
  c3_timeout_fallback ⟨("w"), PyVal.int 1, PyVal.str ("X")⟩ rfl

/-- C8 (confirmed): whenever `execute` returns — success, the work raising,
or deadline timeout — the done flag is set; each exit path in the source
assigns `self.__done = True` exactly once, so the flag ends true on every
outcome, including the exception path. -/
theorem c8_done_set (w : FunctionWrapper) (o : WorkOutcome) (st : WrapperResult)
    (h : w.execute o = some st) : st.done = true := by
  cases o with
  | returns v =>
      by_cases htr : w.timeout.truthy <;>
        simp only [FunctionWrapper.execute, htr, if_true, if_false,
          Bool.false_eq_true, Option.some.injEq] at h <;>
        subst h <;> rfl
  | raises e =>
      by_cases htr : w.timeout.truthy <;>
        simp only [FunctionWrapper.execute, htr, if_true, if_false,
          Bool.false_eq_true, Option.some.injEq] at h <;>
        subst h <;> rfl
  | hangs =>
      by_cases htr : w.timeout.truthy
      · simp only [FunctionWrapper.execute, htr, if_true] at h
        by_cases hd : w.default_return.truthy <;>
          simp only [hd, if_true, if_false, Bool.false_eq_true,
            Option.some.injEq] at h <;>
          subst h <;> rfl
      · simp [FunctionWrapper.execute, htr] at h

/-- C8 witness: the done flag after the exception path (work raised). -/
theorem c8_witness :
    (⟨PyVal.none, PyVal.str ("boom"), true, true, true⟩ : WrapperResult).done = true :=
  c8_done_set ⟨("w"), PyVal.none, PyVal.none⟩ (WorkOutcome.raises ("boom")) _ rfl

/-! ## Claims about `Pool.execute` -/

/-- C1 counterexample: for the empty task list `Pool.execute` does not
produce two length-0 sequences — `zip(*[])` makes the two-target unpacking
raise `ValueError`, so no `Except.ok` result exists. -/
theorem c1_counterexample :
    ¬ ∃ rv errs, Pool.execute ⟨[], 3⟩ = some (Except.ok (rv, errs)) := by
  rintro ⟨rv, errs, h⟩
  have h2 : some (Except.error ("ValueError: not enough values to unpack"))
      = some (Except.ok (rv, errs)) := h
  exact Except.noConfusion (Option.some.inj h2)

/-- C1 (amended): for every NONEMPTY list of task specifications whose tasks
all finish, and every pool size, `Pool.execute` returns `return_values` and
`errors` of length exactly N, with index i of each corresponding to the i-th
submitted wrapper tuple (map semantics: the order is the submission order,
independent of completion order). -/
theorem c1_bulk_order (p : Pool) (ts : List (PyVal × PyVal))
    (hne : p.wrapper_tuples ≠ [])
    (hts : optionTraverse funcModel p.wrapper_tuples = some ts) :
    p.execute = some (Except.ok (ts.map Prod.fst, ts.map Prod.snd)) ∧
    (ts.map Prod.fst).length = p.wrapper_tuples.length ∧
    (ts.map Prod.snd).length = p.wrapper_tuples.length ∧
    ∀ (i : Nat) (h1 : i < p.wrapper_tuples.length) (h2 : i < ts.length),
      funcModel (p.wrapper_tuples.get ⟨i, h1⟩) = some (ts.get ⟨i, h2⟩) := by
  have hlen := optionTraverse_length funcModel p.wrapper_tuples ts hts
  have htne : ts ≠ [] := by
    intro h
    apply hne
    subst h
    exact List.length_eq_zero.mp hlen.symm
  refine ⟨?_, by simpa using hlen, by simpa using hlen, ?_⟩
  · unfold Pool.execute
    rw [hts]
    cases ts with
    | nil => exact absurd rfl htne
    | cons a as => rfl
  · exact fun i h1 h2 => optionTraverse_get funcModel p.wrapper_tuples ts hts i h1 h2

/-- C1 witness: a two-task batch (one success, one raising) yields aligned
result and error sequences of length two. -/
theorem c1_witness :
    Pool.execute ⟨[⟨("a"), PyVal.none, PyVal.none, WorkOutcome.returns (PyVal.int 7)⟩,
                   ⟨("b"), PyVal.none, PyVal.none, WorkOutcome.raises ("boom")⟩], 2⟩ =
      some (Except.ok ([PyVal.int 7, PyVal.none],
                       [PyVal.none, PyVal.str ("boom")])) :=
  (c1_bulk_order
    ⟨[⟨("a"), PyVal.none, PyVal.none, WorkOutcome.returns (PyVal.int 7)⟩,
      ⟨("b"), PyVal.none, PyVal.none, WorkOutcome.raises ("boom")⟩], 2⟩
    [(PyVal.int 7, PyVal.none), (PyVal.none, PyVal.str ("boom"))]
    (by simp) rfl).1

/-- C10 (confirmed): on the empty wrapper-tuple list, `Pool.execute` raises
(`ValueError` from unpacking `zip(*[])`) instead of returning two empty
sequences, so the length-N guarantee does not hold at N = 0. -/
theorem c10_empty_unpack_error :
    Pool.execute ⟨[], 4⟩ =
      some (Except.error ("ValueError: not enough values to unpack")) := rfl

/-! ## Claims about `RegexWebScraper` -/

/-- C4 (confirmed): a transient I/O failure (read timeout or connection
error) leaves the bounded retry counter unchanged and simply retries, and a
run of transient failures of any length keeps the call running (it never
returns, hence never surfaces these failures to the caller of `scrape`):
retries on this class are unbounded. -/
theorem c4_transient_unbounded (scr : RegexWebScraper) :
    (∀ rest retry_count,
        scr.scrape_retry (FetchOutcome.readTimeout :: rest) retry_count =
          scr.scrape_retry rest retry_count) ∧
    (∀ rest retry_count,
        scr.scrape_retry (FetchOutcome.connectionError :: rest) retry_count =
          scr.scrape_retry rest retry_count) ∧
    (∀ retry_count n,
        scr.scrape_retry (List.replicate n FetchOutcome.readTimeout) retry_count =
          Option.none) ∧
    (∀ retry_count n,
        scr.scrape_retry (List.replicate n FetchOutcome.connectionError) retry_count =
          Option.none) := by
  refine ⟨fun rest rc => rfl, fun rest rc => rfl, fun rc n => ?_, fun rc n => ?_⟩ <;>
    induction n with
    | zero => rfl
    | succ m ih => rw [List.replicate_succ]; exact ih

/-- C5 (confirmed): for every configuration, a generic (non-transient) fetch
failure increments the bounded counter and retries while the counter is below
`max_retries` (first conjunct, the step rule); a run of generic failures long
enough for the counter to reach `max_retries` makes the call return one
`None` per pattern instead of raising (second conjunct); below that bound the
call is still retrying (third conjunct); and with `max_retries = 1` the very
first failure already returns the all-null list (fourth conjunct). -/
theorem c5_bounded_exhaustion (scr : RegexWebScraper) :
    (∀ rest retry_count,
        scr.scrape_retry (FetchOutcome.genericError :: rest) retry_count =
          if retry_count + 1 < scr.max_retries then
            scr.scrape_retry rest (retry_count + 1)
          else
            some (List.replicate scr.pattern_list.length Option.none)) ∧
    (∀ k retry_count, 1 ≤ k → scr.max_retries ≤ retry_count + k →
        scr.scrape_retry (List.replicate k FetchOutcome.genericError) retry_count =
          some (List.replicate scr.pattern_list.length Option.none)) ∧
    (∀ k retry_count, retry_count + k < scr.max_retries →
        scr.scrape_retry (List.replicate k FetchOutcome.genericError) retry_count =
          Option.none) ∧
    (scr.max_retries = 1 →
        ∀ rest, scr.scrape_retry (FetchOutcome.genericError :: rest) 0 =
          some (List.replicate scr.pattern_list.length Option.none)) := by
  have hstep : ∀ rest retry_count,
      scr.scrape_retry (FetchOutcome.genericError :: rest) retry_count =
        if retry_count + 1 < scr.max_retries then
          scr.scrape_retry rest (retry_count + 1)
        else
          some (List.replicate scr.pattern_list.length Option.none) :=
    fun rest rc => rfl
  have hexh : ∀ k retry_count, 1 ≤ k → scr.max_retries ≤ retry_count + k →
      scr.scrape_retry (List.replicate k FetchOutcome.genericError) retry_count =
        some (List.replicate scr.pattern_list.length Option.none) := by
    intro k
    induction k with
    | zero => intro rc h1 _; exact absurd h1 (by omega)
    | succ m ih =>
        intro rc _ h2
        rw [List.replicate_succ, hstep]
        by_cases hlt : rc + 1 < scr.max_retries
        · rw [if_pos hlt]
          exact ih (rc + 1) (by omega) (by omega)
        · rw [if_neg hlt]
  have hrun : ∀ k retry_count, retry_count + k < scr.max_retries →
      scr.scrape_retry (List.replicate k FetchOutcome.genericError) retry_count =
        Option.none := by
    intro k
    induction k with
    | zero => intro rc _; rfl
    | succ m ih =>
        intro rc h
        rw [List.replicate_succ, hstep, if_pos (by omega)]
        exact ih (rc + 1) (by omega)
  exact ⟨hstep, hexh, hrun, fun h rest => by rw [hstep, if_neg (by omega)]⟩

/-- C5 witness: a scraper with one pattern and `max_retries = 2` returns the
all-null list once two generic failures have driven the counter to the bound. -/
theorem c5_witness :
    RegexWebScraper.scrape_retry
      ⟨[[RItem.core (RItemCore.once (RAtom.lit 'x'))]], 10, 1, 2, false, false,
        Option.none⟩
      (List.replicate 2 FetchOutcome.genericError) 0 =
      some (List.replicate 1 Option.none) :=
  (c5_bounded_exhaustion
    ⟨[[RItem.core (RItemCore.once (RAtom.lit 'x'))]], 10, 1, 2, false, false,
      Option.none⟩).2.1 2 0 (by decide) (by decide)

/-- C6 (confirmed): if extraction raises for any configured pattern on a
successfully fetched document, the inner handler replaces the whole result
with one `None` per pattern, so the arity equals the pattern count and no
partial mix of matched and null entries is returned. -/
theorem c6_extraction_all_null (scr : RegexWebScraper) (contents : String)
    (rest : List FetchOutcome) (retry_count : Nat) (p : List RItem)
    (hp : p ∈ scr.pattern_list)
    (hfail : scr.extractOne p contents.toList = Option.none) :
    scr.scrape_retry (FetchOutcome.success contents :: rest) retry_count =
      some (List.replicate scr.pattern_list.length Option.none) := by
  have hall : scr.extractAll contents.toList = Option.none :=
    optionTraverse_none_of_mem (fun q => scr.extractOne q contents.toList)
      scr.pattern_list p hp hfail
  have hall2 : scr.extractAll contents.data = Option.none := hall
  simp [RegexWebScraper.scrape_retry, RegexWebScraper.matchesOf, hall2]

/-- C6 witness: a single pattern that finds no match degrades to the
one-element all-null list. -/
theorem c6_witness :
    RegexWebScraper.scrape_retry
      ⟨[[RItem.core (RItemCore.once (RAtom.lit 'x'))]], 10, 1, 3, false, false,
        Option.none⟩
      (FetchOutcome.success ("abc") :: []) 0 = some (List.replicate 1 Option.none) :=
  c6_extraction_all_null _ ("abc") [] 0 [RItem.core (RItemCore.once (RAtom.lit 'x'))]
    (by simp) rfl

/-- C7 counterexample: with `max_retries = 3`, a successful fetch whose
extraction raises returns the all-null list after a single attempt (the code,
left conjunct), whereas under the claim's bounded-retry reading the call
would still be retrying after that one attempt (the claim model, right
conjunct, has not returned). -/
theorem c7_counterexample :
    RegexWebScraper.scrape_retry
      ⟨[[RItem.core (RItemCore.once (RAtom.lit 'q'))]], 10, 1, 3, false, false,
        Option.none⟩
      (FetchOutcome.success ("abc") :: []) 0 = some [Option.none] ∧
    scrapeRetryClaimC7
      ⟨[[RItem.core (RItemCore.once (RAtom.lit 'q'))]], 10, 1, 3, false, false,
        Option.none⟩
      (FetchOutcome.success ("abc") :: []) 0 = Option.none :=
  ⟨rfl, rfl⟩

/-- C7 (amended): an extraction error on a successfully fetched document
degrades to the all-null result immediately, on the same call — independent
of the retry counter and of any remaining attempts — without consuming the
bounded retry budget; only errors raised by the fetch itself take the
bounded-retry path. -/
theorem c7_extraction_immediate (scr : RegexWebScraper) (contents : String)
    (hfail : scr.extractAll contents.toList = Option.none)
    (rest : List FetchOutcome) (retry_count : Nat) :
    scr.scrape_retry (FetchOutcome.success contents :: rest) retry_count =
      some (List.replicate scr.pattern_list.length Option.none) := by
  have hfail2 : scr.extractAll contents.data = Option.none := hfail
  simp [RegexWebScraper.scrape_retry, RegexWebScraper.matchesOf, hfail2]

/-- C7 witness: a digit pattern against a digit-free document, with a large
retry budget and nonzero counter, still degrades immediately. -/
theorem c7_witness :
    RegexWebScraper.scrape_retry
      ⟨[[RItem.core (RItemCore.plus RAtom.digit)]], 10, 1, 5, false, false,
        Option.none⟩
      (FetchOutcome.success ("no digits here") :: []) 2 =
      some (List.replicate 1 Option.none) :=
  c7_extraction_immediate
    ⟨[[RItem.core (RItemCore.plus RAtom.digit)]], 10, 1, 5, false, false,
      Option.none⟩
    ("no digits here") rfl [] 2

/-- C9 (confirmed): compiling and running the configured modes — find-all
with pattern a+ against "aaa bbb aa" yields the two matches, and first-match
with capture-group selector (1,) and the dash-separated digit pattern against
"12-34" yields the first group "12". -/
theorem c9_extraction_modes :
    compilePatterns [("a+")] =
      some [[RItem.core (RItemCore.plus (RAtom.lit 'a'))]] ∧
    RegexWebScraper.scrape
      ⟨[[RItem.core (RItemCore.plus (RAtom.lit 'a'))]], 10, 1, 3, false, true,
        Option.none⟩
      [FetchOutcome.success ("aaa bbb aa")] =
      some [some (PatValue.list [MatchVal.str ("aaa"), MatchVal.str ("aa")])] ∧
    compilePatterns [("(\\d+)-(\\d+)")] =
      some [[RItem.group [RItemCore.plus RAtom.digit],
             RItem.core (RItemCore.once (RAtom.lit '-')),
             RItem.group [RItemCore.plus RAtom.digit]]] ∧
    RegexWebScraper.scrape
      ⟨[[RItem.group [RItemCore.plus RAtom.digit],
         RItem.core (RItemCore.once (RAtom.lit '-')),
         RItem.group [RItemCore.plus RAtom.digit]]], 10, 1, 3, false, false,
        some [1]⟩
      [FetchOutcome.success ("12-34")] =
      some [some (PatValue.str ("12"))] :=
  ⟨rfl, rfl, rfl, rfl⟩
